import Mathlib

/-!
Verification development for the space-apps weather backend.

The Python source is shallowly embedded over exact rationals (ℚ):
pandas Series / DataFrame columns become `List (Option ℚ)` where `none`
models a NaN (missing) cell, dates become a `CalDate` record, and code
that can raise a Python exception is embedded with `Option` / `Except`.
The external NASA POWER data provider (reached through `requests.get`)
is modelled as a function parameter from request urls to optional HTTP
responses, `none` standing for an unreachable provider (a raised
`requests` exception).

Python `round` / pandas `.round(2)` round half to even; `round2` below
implements that exactly on ℚ.  The standard deviation reported by
`describe()` involves a real square root; since the code only ever
stores the value rounded to 2 decimals, the embedding computes that
rounded value exactly with integer square roots (`rheSqrt100`), keeping
every definition executable.
-/

/-- Calendar date, the embedding of a `pandas.Timestamp` at day
resolution (the code only ever uses day precision). -/
structure CalDate where
  year : ℤ
  month : ℕ
  day : ℕ
deriving DecidableEq

/-- Gregorian leap-year test, as used by `pandas`/`datetime`. -/
def isLeap (y : ℤ) : Bool :=
  (y % 4 == 0 && y % 100 != 0) || y % 400 == 0

/-- Number of days in a Gregorian month. -/
def daysInMonth (y : ℤ) (m : ℕ) : ℕ :=
  if m = 2 then (if isLeap y then 29 else 28)
  else if m = 4 ∨ m = 6 ∨ m = 9 ∨ m = 11 then 30
  else 31

/-- Validity of a year/month/day triple in the proleptic Gregorian
calendar (what `datetime` accepts). -/
def isValidYMD (y : ℤ) (m d : ℕ) : Bool :=
  1 ≤ m && m ≤ 12 && 1 ≤ d && d ≤ daysInMonth y m

/-- Successor day in the Gregorian calendar. -/
def nextDay (d : CalDate) : CalDate :=
  if d.day < daysInMonth d.year d.month then ⟨d.year, d.month, d.day + 1⟩
  else if d.month < 12 then ⟨d.year, d.month + 1, 1⟩
  else ⟨d.year + 1, 1, 1⟩

/-- Predecessor day in the Gregorian calendar. -/
def prevDay (d : CalDate) : CalDate :=
  if 1 < d.day then ⟨d.year, d.month, d.day - 1⟩
  else if 1 < d.month then ⟨d.year, d.month - 1, daysInMonth d.year (d.month - 1)⟩
  else ⟨d.year - 1, 12, 31⟩

/-- Add `n` days, the embedding of `Timestamp + Timedelta(days=n)`. -/
def addDays (d : CalDate) : ℕ → CalDate
  | 0 => d
  | n + 1 => addDays (nextDay d) n

/-- Subtract `n` days, the embedding of `Timestamp - Timedelta(days=n)`. -/
def subDays (d : CalDate) : ℕ → CalDate
  | 0 => d
  | n + 1 => subDays (prevDay d) n

/-- Day number (rata die style) of a Gregorian date, used only to size
the ideal provider's response for a requested window. -/
def toRD (d : CalDate) : ℤ :=
  let y : ℤ := if d.month ≤ 2 then d.year - 1 else d.year
  let era : ℤ := Int.fdiv y 400
  let yoe : ℤ := y - era * 400
  let mp : ℕ := (d.month + 9) % 12
  let doy : ℕ := (153 * mp + 2) / 5 + d.day - 1
  let doe : ℤ := yoe * 365 + Int.fdiv yoe 4 - Int.fdiv yoe 100 + (doy : ℤ)
  era * 146097 + doe

/-- List `[s, s+1day, …]` of `n` consecutive dates. -/
def dateList (s : CalDate) : ℕ → List CalDate
  | 0 => []
  | n + 1 => s :: dateList (nextDay s) n

/-- All dates from `s` to `e` inclusive (for `s ≤ e`); the set of date
keys a well-behaved daily provider answers for the window `[s, e]`. -/
def dateRange (s e : CalDate) : List CalDate :=
  dateList s (toRD e - toRD s + 1).toNat

/-- Embedding of `data_handling.filter_date`: start/end of the window of
radius `days` around `target_date`. -/
def filter_date (target_date : CalDate) (days : ℕ) : CalDate × CalDate :=
  (subDays target_date days, addDays target_date days)

/-- Embedding of `Timestamp.replace(year=y)`: keeps month and day and
raises `ValueError` (here `none`) when the resulting triple is not a
valid date (e.g. Feb 29 in a non-leap year). -/
def replaceYear (d : CalDate) (y : ℤ) : Option CalDate :=
  if isValidYMD y d.month d.day then some ⟨y, d.month, d.day⟩ else none

/-- Embedding of `data_handling.filter_years`: the list comprehension
`[target_date.replace(year=target_date.year - i) for i in range(1, years+1)]`;
`none` models the `ValueError` raised by `replace` on an invalid result. -/
def filter_years (target_date : CalDate) (years : ℕ) : Option (List CalDate) :=
  (List.range years).mapM
    (fun i : ℕ => replaceYear target_date (target_date.year - ((i : ℤ) + 1)))

/-- Embedding of `data_handling.calculate_heat_index` (element case; the
code applies it element-wise over series). -/
def calculate_heat_index (temp_c rel_humid : ℚ) : ℚ :=
  let T := temp_c * 9 / 5 + 32
  let R := rel_humid
  let HI := -42.379 + 2.04901523 * T + 10.14333127 * R - 0.22475541 * T * R
      - 6.83783e-3 * T ^ 2 - 5.481717e-2 * R ^ 2
      + 1.22874e-3 * T ^ 2 * R + 8.5282e-4 * T * R ^ 2
      - 1.99e-6 * T ^ 2 * R ^ 2
  (HI - 32) * 5 / 9

/-- Modelled from the spec (§4.3): Celsius to Fahrenheit, `F = C×9/5+32`. -/
def spec_c_to_f (c : ℚ) : ℚ := c * 9 / 5 + 32

/-- Modelled from the spec (§4.3): the fixed Rothfusz regression
polynomial `HI(F, R)` with the spec's published decimal coefficients. -/
def spec_rothfusz (F R : ℚ) : ℚ :=
  -42.379 + 2.04901523 * F + 10.14333127 * R - 0.22475541 * F * R
    - 0.00683783 * F ^ 2 - 0.05481717 * R ^ 2
    + 0.00122874 * F ^ 2 * R + 0.00085282 * F * R ^ 2
    - 0.00000199 * F ^ 2 * R ^ 2

/-- Modelled from the spec (§4.3): Fahrenheit back to Celsius,
`(F−32)×5/9`. -/
def spec_f_to_c (f : ℚ) : ℚ := (f - 32) * 5 / 9

/-- Application of a boolean column mask to one cell: a pandas
comparison mask is `False` at a NaN cell, so a missing value never
satisfies a category condition. -/
def cellSat (p : ℚ → Bool) : Option ℚ → Bool
  | some v => p v
  | none => false

/-- Embedding of Python's `max(events, key=events.get)` over the
insertion-ordered dict of events: scan left to right keeping the current
best, replacing it only on a strictly larger value, so the earliest
maximal entry wins.  (On an empty dict Python raises; the `[]` case here
is unreachable for the category tables of the program.) -/
def argmaxFirst : List (String × ℚ) → String × ℚ
  | [] => ("", 0)
  | e :: es => es.foldl (fun b p => if b.2 < p.2 then p else b) e

/-- Embedding of `predict.classify_event`.  `series` is a pandas Series
(cells may be NaN), `categories` the insertion-ordered dict of boolean
masks.  `count` is `series[condition].count()` (non-NaN cells satisfying
the mask), `total` is `len(series)`; the probability is `count / total`
(a division with no guard against `total = 0`). -/
def classify_event (series : List (Option ℚ)) (categories : List (String × (ℚ → Bool))) :
    ℚ × String × List (String × ℚ) :=
  let total := series.length
  let events := categories.map
    (fun c => (c.1, ((series.countP (cellSat c.2) : ℚ) / (total : ℚ))))
  let best := argmaxFirst events
  (best.2, best.1, events)

/-- Temperature category table of `predict.check_temperature`. -/
def catTemp : List (String × (ℚ → Bool)) :=
  [ ("Very Hot", fun t => decide (40 ≤ t)),
    ("Hot", fun t => decide (35 ≤ t) && decide (t < 40)),
    ("Warm", fun t => decide (30 ≤ t) && decide (t < 35)),
    ("Moderate", fun t => decide (20 ≤ t) && decide (t ≤ 29)),
    ("Cool", fun t => decide (11 ≤ t) && decide (t ≤ 19)),
    ("Cold", fun t => decide (t ≤ 10) && decide (5 < t)),
    ("Very Cold", fun t => decide (t ≤ 5)) ]

/-- Humidity category table of `predict.check_humidity`. -/
def catHum : List (String × (ℚ → Bool)) :=
  [ ("Comfortable", fun r => decide (r < 60)),
    ("Humid", fun r => decide (60 ≤ r) && decide (r < 80)),
    ("Very Uncomfortable", fun r => decide (80 ≤ r)) ]

/-- General precipitation category table of `predict.check_precipitation`
(used when not every value is zero). -/
def catPrecip : List (String × (ℚ → Bool)) :=
  [ ("Low", fun p => decide (0 < p) && decide (p ≤ 2)),
    ("Moderate", fun p => decide (2 < p) && decide (p ≤ 10)),
    ("High", fun p => decide (10 < p)) ]

/-- Wind category table of `predict.check_wind`. -/
def catWind : List (String × (ℚ → Bool)) :=
  [ ("Calm", fun w => decide (w < 3)),
    ("Breezy", fun w => decide (3 ≤ w) && decide (w < 6)),
    ("Windy", fun w => decide (6 ≤ w) && decide (w < 10)),
    ("Very Windy", fun w => decide (10 ≤ w)) ]

/-- Heat-index category table of `predict.check_heat_index`. -/
def catHI : List (String × (ℚ → Bool)) :=
  [ ("Safe", fun s => decide (s < 27)),
    ("Caution", fun s => decide (27 ≤ s) && decide (s < 32)),
    ("Extreme Caution", fun s => decide (32 ≤ s) && decide (s < 41)),
    ("Danger", fun s => decide (41 ≤ s) && decide (s < 54)),
    ("Extreme Danger", fun s => decide (54 ≤ s)) ]

/-- Sum of the probabilities of a label-to-probability mapping. -/
def sumProbs (events : List (String × ℚ)) : ℚ :=
  (events.map (fun p => p.2)).sum

/-- Observation table produced by `data_fetching.process_data`
(column-oriented, like a pandas DataFrame): the `Date` column plus the
six numeric columns; a cell is `none` when the provider sent a null
(pandas NaN). -/
structure ObsTable where
  dates : List CalDate
  precip : List (Option ℚ)
  temp : List (Option ℚ)
  ws2 : List (Option ℚ)
  ws10 : List (Option ℚ)
  rh : List (Option ℚ)
  qv : List (Option ℚ)
deriving DecidableEq

/-- Observation table after `get_combined_dataframe` has assigned the
derived `Heat Index (°C)` column. -/
structure ObsTableH where
  dates : List CalDate
  precip : List (Option ℚ)
  temp : List (Option ℚ)
  ws2 : List (Option ℚ)
  ws10 : List (Option ℚ)
  rh : List (Option ℚ)
  qv : List (Option ℚ)
  hi : List (Option ℚ)
deriving DecidableEq

/-- A pandas DataFrame as it flows out of `process_data`: either the
column-less `pd.DataFrame()` returned for a failed fetch, or a real
observation table. -/
inductive PandasDF
  | noColumns
  | table (t : ObsTable)
deriving DecidableEq

/-- Parameter block of a NASA POWER JSON payload
(`raw_data["properties"]["parameter"]`): one insertion-ordered
date-keyed mapping per requested variable.  The date keys are carried on
the `PRECTOTCORR` entry, exactly as `process_data` reads them. -/
structure Params where
  prectotcorr : List (CalDate × Option ℚ)
  t2m : List (Option ℚ)
  ws2m : List (Option ℚ)
  ws10m : List (Option ℚ)
  rh2m : List (Option ℚ)
  qv2m : List (Option ℚ)
deriving DecidableEq

/-- Parsed JSON body of a provider response: `malformed` models a JSON
document lacking the `properties`/`parameter` structure (or date keys
`to_datetime` cannot parse), which makes `process_data` raise. -/
inductive RawJson
  | malformed
  | params (p : Params)
deriving DecidableEq

/-- HTTP response as seen by `fetch_data`; `body = none` models a body
on which `response.json()` raises. -/
structure HttpResponse where
  status_code : ℤ
  body : Option RawJson
deriving DecidableEq

/-- Request identity built by `data_fetching.build_url`: the URL is a
printf of exactly these four fields (plus fixed parameter and format
strings), so it is modelled by the fields themselves. -/
structure Url where
  lat : ℚ
  lon : ℚ
  start : CalDate
  stop : CalDate
deriving DecidableEq

/-- Embedding of `data_fetching.build_url`. -/
def build_url (lat lon : ℚ) (start stop : CalDate) : Url :=
  ⟨lat, lon, start, stop⟩

/-- The external data provider reached through `requests.get`: `none`
models a raised transport exception (provider unreachable). -/
def Provider : Type := Url → Option HttpResponse

/-- Failure taxonomy of the aggregation pipeline, naming the Python
exception (or error path) each constructor embeds. -/
inductive AggErr
  | transport
  | badJson
  | malformedPayload
  | raggedColumns
  | keyError
  | valueErrorDate
  | concatEmpty
deriving DecidableEq

/-- Embedding of `data_fetching.fetch_data` applied to the outcome of
`requests.get(url)`: a raised transport exception propagates
(`.error .transport`); a 200 response is parsed with `response.json()`
(which may raise, `.error .badJson`); any other status prints the error
and returns Python `None` (`.ok none`). -/
def fetch_data : Option HttpResponse → Except AggErr (Option RawJson)
  | none => .error .transport
  | some r =>
    if r.status_code = 200 then
      match r.body with
      | none => .error .badJson
      | some j => .ok (some j)
    else .ok none

/-- Column lengths that `pd.DataFrame({...})` accepts: all six value
lists must have the same length as the date-keyed `PRECTOTCORR` list. -/
def paramsAligned (p : Params) : Bool :=
  p.t2m.length == p.prectotcorr.length &&
  p.ws2m.length == p.prectotcorr.length &&
  p.ws10m.length == p.prectotcorr.length &&
  p.rh2m.length == p.prectotcorr.length &&
  p.qv2m.length == p.prectotcorr.length

/-- Embedding of `data_fetching.process_data`: `None` input yields the
column-less empty DataFrame; a payload without the expected structure
raises (`.malformedPayload`); ragged column lists make the DataFrame
constructor raise (`.raggedColumns`); otherwise the observation table is
assembled column by column. -/
def process_data : Option RawJson → Except AggErr PandasDF
  | none => .ok .noColumns
  | some .malformed => .error .malformedPayload
  | some (.params p) =>
    if paramsAligned p then
      .ok (.table
        { dates := p.prectotcorr.map (fun kv => kv.1)
          precip := p.prectotcorr.map (fun kv => kv.2)
          temp := p.t2m
          ws2 := p.ws2m
          ws10 := p.ws10m
          rh := p.rh2m
          qv := p.qv2m })
    else .error .raggedColumns

/-- One column pass of `data_fetching.clean_data`:
`df[col].fillna(df[col].mean())`.  The pandas mean skips NaN cells; if
the column has no non-NaN cell the mean is itself NaN and `fillna`
leaves the column unchanged. -/
def fillColumn (c : List (Option ℚ)) : List (Option ℚ) :=
  let present := c.filterMap id
  if present.isEmpty then c
  else
    let m := present.sum / (present.length : ℚ)
    c.map (fun cell => match cell with
      | some v => some v
      | none => some m)

/-- `clean_data` on a real observation table: every numeric (float)
column is mean-filled; the datetime `Date` column is not numeric and is
left untouched. -/
def cleanTable (t : ObsTable) : ObsTable :=
  { dates := t.dates
    precip := fillColumn t.precip
    temp := fillColumn t.temp
    ws2 := fillColumn t.ws2
    ws10 := fillColumn t.ws10
    rh := fillColumn t.rh
    qv := fillColumn t.qv }

/-- Embedding of `data_fetching.clean_data`; on the column-less empty
DataFrame the loop over `df.columns` does nothing. -/
def clean_data : PandasDF → PandasDF
  | .noColumns => .noColumns
  | .table t => .table (cleanTable t)

/-- Embedding of `data_fetching.format_data` (and of the memoized
`format_data_cached` wrapper that `data_handling` imports — per spec §5
the cache only memoizes identical requests, so its observable value is
that of `format_data`). -/
def format_data (provider : Provider) (lat lon : ℚ) (start stop : CalDate) :
    Except AggErr PandasDF :=
  match fetch_data (provider (build_url lat lon start stop)) with
  | .error e => .error e
  | .ok raw =>
    match process_data raw with
    | .error e => .error e
    | .ok df => .ok (clean_data df)

/-- Floor of a rational as an integer, written out on the numerator and
denominator so that it evaluates inside the kernel. -/
def floorQ (x : ℚ) : ℤ := x.num / (x.den : ℤ)

/-- Round half to even (banker's rounding) to an integer, the rounding
used by Python's `round` and pandas' `.round`. -/
def rhe (x : ℚ) : ℤ :=
  let f := floorQ x
  let frac := x - (f : ℚ)
  if frac < 1 / 2 then f
  else if 1 / 2 < frac then f + 1
  else if f % 2 = 0 then f else f + 1

/-- Round half to even at 2 decimal digits, the embedding of
`round(x, 2)` / `.round(2)`. -/
def round2 (x : ℚ) : ℚ := (rhe (100 * x) : ℚ) / 100

/-- Sorted insertion, the auxiliary step of `sortQ`. -/
def insertSorted (x : ℚ) : List ℚ → List ℚ
  | [] => [x]
  | y :: ys => if x ≤ y then x :: y :: ys else y :: insertSorted x ys

/-- Ascending sort of a rational list (the sort pandas performs before
computing quantiles). -/
def sortQ (l : List ℚ) : List ℚ := l.foldr insertSorted []

/-- Minimum of a list (0 on the empty list, which is never used). -/
def minOf : List ℚ → ℚ
  | [] => 0
  | x :: xs => xs.foldl min x

/-- Maximum of a list (0 on the empty list, which is never used). -/
def maxOf : List ℚ → ℚ
  | [] => 0
  | x :: xs => xs.foldl max x

/-- Linear-interpolation quantile of an ascending nonempty list, the
method `Series.describe` uses for the 25%/50%/75% rows. -/
def quantileLinear (xs : List ℚ) (q : ℚ) : ℚ :=
  let n := xs.length
  let h := q * ((n : ℚ) - 1)
  let j := (floorQ h).toNat
  let a := xs.getD j 0
  let b := xs.getD (j + 1) a
  a + (h - (j : ℚ)) * (b - a)

/-- Newton iteration for the integer square root, written with a
structurally decreasing fuel argument so that it evaluates inside the
kernel. -/
def sqrtAux : ℕ → ℕ → ℕ → ℕ
  | 0, _, g => g
  | fuel + 1, n, g =>
    let g2 := (g + n / g) / 2
    if g2 < g then sqrtAux fuel n g2 else g

/-- Integer square root (the floor of the real square root). -/
def sqrtNat (n : ℕ) : ℕ :=
  if n ≤ 1 then n else sqrtAux n n (n / 2 + 1)

/-- Exact value of `round(sqrt v, 2)` for `v ≥ 0`, computed with integer
square roots: with `n = ⌊√(10000·v)⌋`, the result is `n/100` or
`(n+1)/100` according to which is nearer to `√v` (half to even on the
exact tie).  Used for the (already rounded) `std` entry `describe`
stores, keeping the embedding executable. -/
def rheSqrt100 (v : ℚ) : ℚ :=
  let num := (10000 * v).num.toNat
  let den := (10000 * v).den
  let n := sqrtNat (num * den) / den
  let c := 10000 * v - ((n : ℚ) + 1 / 2) ^ 2
  let m := if 0 < c then n + 1 else if c < 0 then n else (if n % 2 = 0 then n else n + 1)
  (m : ℚ) / 100

/-- Statistics record built by `output_formatting.get_column_statistics`:
the dict `data.describe().round(2).to_dict()` plus the added `range`
key.  `describe` skips NaN cells; entries that come out as NaN (empty or
all-NaN series; `std` of fewer than two values) are `none`. -/
structure ColumnStats where
  count : ℚ
  mean : Option ℚ
  std : Option ℚ
  min : Option ℚ
  p25 : Option ℚ
  p50 : Option ℚ
  p75 : Option ℚ
  max : Option ℚ
  range : Option ℚ
deriving DecidableEq

/-- Sample variance with one delta degree of freedom, as used by
`Series.std` inside `describe` (meaningful for two or more values). -/
def sampleVar (l : List ℚ) : ℚ :=
  let n : ℚ := (l.length : ℚ)
  let m := l.sum / n
  (l.map (fun x => (x - m) ^ 2)).sum / (n - 1)

/-- Embedding of `output_formatting.get_column_statistics`:
`data.describe().round(2).to_dict()` followed by
`stats["range"] = round(stats["max"] - stats["min"], 2)` (note the range
is computed from the already-rounded min and max).  On a series with no
non-NaN cell, `describe` returns count 0 and NaN everywhere, and the
function still returns that record — it raises nothing. -/
def get_column_statistics (data : List (Option ℚ)) : ColumnStats :=
  let present := data.filterMap id
  let n := present.length
  if n = 0 then
    { count := 0, mean := none, std := none, min := none,
      p25 := none, p50 := none, p75 := none, max := none, range := none }
  else
    let sorted := sortQ present
    let mn := round2 (minOf present)
    let mx := round2 (maxOf present)
    { count := (n : ℚ)
      mean := some (round2 (present.sum / (n : ℚ)))
      std := if n = 1 then none else some (rheSqrt100 (sampleVar present))
      min := some mn
      p25 := some (round2 (quantileLinear sorted (1 / 4)))
      p50 := some (round2 (quantileLinear sorted (1 / 2)))
      p75 := some (round2 (quantileLinear sorted (3 / 4)))
      max := some mx
      range := some (round2 (mx - mn)) }

/-- Embedding of `predict.check_temperature`. -/
def check_temperature (df : ObsTableH) : ℚ × String × List (String × ℚ) :=
  classify_event df.temp catTemp

/-- Embedding of `predict.check_humidity`. -/
def check_humidity (df : ObsTableH) : ℚ × String × List (String × ℚ) :=
  classify_event df.rh catHum

/-- Embedding of `predict.check_precipitation`: if every value of the
series is exactly zero (`(precip == 0).all()`; a NaN cell compares
unequal) the function short-circuits, returning the literal triple
`(0.0, "None", {"None": 1.0})`; otherwise it classifies with the
general table. -/
def check_precipitation (df : ObsTableH) : ℚ × String × List (String × ℚ) :=
  let precip := df.precip
  if precip.all (fun c => decide (c = some 0)) then
    (0, "None", [("None", 1)])
  else
    classify_event precip catPrecip

/-- Embedding of `predict.check_wind`. -/
def check_wind (df : ObsTableH) : ℚ × String × List (String × ℚ) :=
  classify_event df.ws2 catWind

/-- Embedding of `predict.check_heat_index`. -/
def check_heat_index (df : ObsTableH) : ℚ × String × List (String × ℚ) :=
  classify_event df.hi catHI

/-- One factor entry of `output_formatting.get_predictions`:
probability and distribution rounded to 2 digits. -/
structure FactorResult where
  Probability : ℚ
  Status : String
  Distribution : List (String × ℚ)
deriving DecidableEq

/-- Rounding step `get_predictions` applies to one classifier triple. -/
def roundFactor (t : ℚ × String × List (String × ℚ)) : FactorResult :=
  { Probability := round2 t.1
    Status := t.2.1
    Distribution := t.2.2.map (fun p => (p.1, round2 p.2)) }

/-- Result of `output_formatting.get_predictions`: one rounded
classification result per physical factor. -/
structure Predictions where
  Precipitation : FactorResult
  Temperature : FactorResult
  Wind_Speed : FactorResult
  Relative_Humidity : FactorResult
  Heat_Index : FactorResult
deriving DecidableEq

/-- Embedding of `output_formatting.get_predictions`. -/
def get_predictions (df : ObsTableH) : Predictions :=
  { Precipitation := roundFactor (check_precipitation df)
    Temperature := roundFactor (check_temperature df)
    Wind_Speed := roundFactor (check_wind df)
    Relative_Humidity := roundFactor (check_humidity df)
    Heat_Index := roundFactor (check_heat_index df) }

/-- NaN-propagating element step of the vectorized heat-index
computation. -/
def hiCell (a b : Option ℚ) : Option ℚ :=
  match a, b with
  | some x, some y => some (calculate_heat_index x y)
  | _, _ => none

/-- The column assignment `df["Heat Index (°C)"] = calculate_heat_index(
df["Temperature to 2m (°C)"], df["Relative humidity 2m (%)"])`. -/
def add_heat_index (t : ObsTable) : ObsTableH :=
  { dates := t.dates, precip := t.precip, temp := t.temp, ws2 := t.ws2,
    ws10 := t.ws10, rh := t.rh, qv := t.qv,
    hi := List.zipWith hiCell t.temp t.rh }

/-- One element of the `yearly_data` list built by
`get_combined_dataframe`: the Python dict keys become fields; each
factor key holds the merged dict `{**get_column_statistics(...),
**stats[factor]}`, modelled as the pair of its two parts.  The `Date`,
`Start` and `End` strings are carried as the dates they format. -/
structure YearRecord where
  Year : ℤ
  TDate : CalDate
  Start : CalDate
  Stop : CalDate
  Precipitation : ColumnStats × FactorResult
  Temperature : ColumnStats × FactorResult
  Wind_Speed : ColumnStats × FactorResult
  Relative_Humidity : ColumnStats × FactorResult
  Heat_Index : ColumnStats × FactorResult
  df : ObsTableH
deriving DecidableEq

/-- Assembly of one year's dict inside `get_combined_dataframe`'s loop. -/
def mkYearRecord (d s e : CalDate) (th : ObsTableH) : YearRecord :=
  let preds := get_predictions th
  { Year := d.year
    TDate := d
    Start := s
    Stop := e
    Precipitation := (get_column_statistics th.precip, preds.Precipitation)
    Temperature := (get_column_statistics th.temp, preds.Temperature)
    Wind_Speed := (get_column_statistics th.ws2, preds.Wind_Speed)
    Relative_Humidity := (get_column_statistics th.rh, preds.Relative_Humidity)
    Heat_Index := (get_column_statistics th.hi, preds.Heat_Index)
    df := th }

/-- Embedding of `pd.concat(combined_data, ignore_index=True)`:
column-wise concatenation in list order. -/
def concat_tables (l : List ObsTableH) : ObsTableH :=
  { dates := (l.map (fun t => t.dates)).flatten
    precip := (l.map (fun t => t.precip)).flatten
    temp := (l.map (fun t => t.temp)).flatten
    ws2 := (l.map (fun t => t.ws2)).flatten
    ws10 := (l.map (fun t => t.ws10)).flatten
    rh := (l.map (fun t => t.rh)).flatten
    qv := (l.map (fun t => t.qv)).flatten
    hi := (l.map (fun t => t.hi)).flatten }

/-- The per-year loop of `data_handling.get_combined_dataframe`: for
each date, fetch the window, derive the heat-index column (a `KeyError`
on the column-less empty DataFrame), build the year dict, and recurse;
any raised exception aborts the whole loop. -/
def aggYears (provider : Provider) (lat lon : ℚ) (days : ℕ) :
    List CalDate → Except AggErr (List YearRecord)
  | [] => .ok []
  | d :: ds =>
    let se := filter_date d days
    match format_data provider lat lon se.1 se.2 with
    | .error e => .error e
    | .ok .noColumns => .error .keyError
    | .ok (.table t) =>
      let th := add_heat_index t
      match aggYears provider lat lon days ds with
      | .error e => .error e
      | .ok rest => .ok (mkYearRecord d se.1 se.2 th :: rest)

/-- Embedding of `data_handling.get_combined_dataframe`: `filter_years`
may raise on an invalid replaced date; the per-year loop may raise; and
`pd.concat` raises on an empty list of frames (year count 0).  On
success it returns the combined table and the `yearly_data` list. -/
def get_combined_dataframe (provider : Provider) (lat lon : ℚ)
    (target_date : CalDate) (days years : ℕ) :
    Except AggErr (ObsTableH × List YearRecord) :=
  match filter_years target_date years with
  | none => .error .valueErrorDate
  | some dates =>
    match aggYears provider lat lon days dates with
    | .error e => .error e
    | .ok recs =>
      match recs with
      | [] => .error .concatEmpty
      | _ => .ok (concat_tables (recs.map (fun r => r.df)), recs)

/-- Per-date variable values of an ideal (never failing) provider. -/
structure SixVals where
  vPrecip : ℚ
  vT2m : ℚ
  vWs2m : ℚ
  vWs10m : ℚ
  vRh2m : ℚ
  vQv2m : ℚ

/-- Parameter block a complete daily provider answers for a given list
of dates: every variable present for every date, no nulls. -/
def mkParams (vals : CalDate → SixVals) (ds : List CalDate) : Params :=
  { prectotcorr := ds.map (fun d => (d, some (vals d).vPrecip))
    t2m := ds.map (fun d => some (vals d).vT2m)
    ws2m := ds.map (fun d => some (vals d).vWs2m)
    ws10m := ds.map (fun d => some (vals d).vWs10m)
    rh2m := ds.map (fun d => some (vals d).vRh2m)
    qv2m := ds.map (fun d => some (vals d).vQv2m) }

/-- Response of a well-behaved daily provider to a window request: HTTP
200 with a well-formed payload holding one value per variable per date
of the window. -/
def goodResponse (vals : CalDate → SixVals) (s e : CalDate) : Option HttpResponse :=
  some { status_code := 200, body := some (.params (mkParams vals (dateRange s e))) }

/-- Proposition "the fetch for this window failed" in the sense of the
spec's failure taxonomy: provider unreachable (a raised transport
exception), a non-success HTTP status, or an unparseable payload (bad
JSON, missing `properties`/`parameter` structure, or ragged column
lists the DataFrame constructor rejects). -/
def FetchFailure : Option HttpResponse → Prop
  | none => True
  | some r =>
    r.status_code ≠ 200 ∨ r.body = none ∨ r.body = some .malformed
      ∨ ∃ p, r.body = some (.params p) ∧ paramsAligned p = false

/-- Concrete two-row observation table whose precipitation column is
identically zero (all other columns arbitrary in-range values). -/
def dfAllZeroPrecip : ObsTableH :=
  { dates := [⟨2023, 8, 13⟩, ⟨2023, 8, 14⟩]
    precip := [some 0, some 0]
    temp := [some 30, some 31]
    ws2 := [some 1, some 2]
    ws10 := [some 1, some 2]
    rh := [some 50, some 55]
    qv := [some 10, some 10]
    hi := [some 30, some 31] }

/-- Observation table a complete daily provider response yields from
`process_data`: one row per date, every cell present. -/
def tableOfVals (vals : CalDate → SixVals) (ds : List CalDate) : ObsTable :=
  { dates := ds
    precip := ds.map (fun d => some (vals d).vPrecip)
    temp := ds.map (fun d => some (vals d).vT2m)
    ws2 := ds.map (fun d => some (vals d).vWs2m)
    ws10 := ds.map (fun d => some (vals d).vWs10m)
    rh := ds.map (fun d => some (vals d).vRh2m)
    qv := ds.map (fun d => some (vals d).vQv2m) }

/-- The same table after the heat-index column has been derived. -/
def idealTableH (vals : CalDate → SixVals) (ds : List CalDate) : ObsTableH :=
  { dates := ds
    precip := ds.map (fun d => some (vals d).vPrecip)
    temp := ds.map (fun d => some (vals d).vT2m)
    ws2 := ds.map (fun d => some (vals d).vWs2m)
    ws10 := ds.map (fun d => some (vals d).vWs10m)
    rh := ds.map (fun d => some (vals d).vRh2m)
    qv := ds.map (fun d => some (vals d).vQv2m)
    hi := ds.map (fun d => some (calculate_heat_index (vals d).vT2m (vals d).vRh2m)) }

/-- A constant set of per-date values for the ideal provider used as a
concrete end-to-end input. -/
def constSix : SixVals := ⟨1, 25, 2, 3, 50, 10⟩

/-- A concrete never-failing daily provider. -/
def idealProvider : Provider :=
  fun u => goodResponse (fun _ => constSix) u.start u.stop

/-- A provider that is always unreachable (`requests.get` raises). -/
def deadProvider : Provider := fun _ => none

/-- The date the spec's `yearSeries` assigns to index `i` (counting from
0): the target with its year replaced by `year − (i+1)`. -/
def yearShift (d : CalDate) (i : ℕ) : CalDate :=
  ⟨d.year - ((i : ℤ) + 1), d.month, d.day⟩

set_option maxRecDepth 8000

theorem floorQ_eq_floor (x : ℚ) : floorQ x = Int.floor x := Rat.floor_def.symm

theorem rhe_intCast (z : ℤ) : rhe (z : ℚ) = z := by
  unfold rhe
  rw [floorQ_eq_floor, Int.floor_intCast]
  norm_num

theorem round2_of_hundredths (z : ℤ) : round2 ((z : ℚ) / 100) = (z : ℚ) / 100 := by
  unfold round2
  rw [show (100 : ℚ) * ((z : ℚ) / 100) = (z : ℚ) by ring, rhe_intCast]

theorem round2_idem (x : ℚ) : round2 (round2 x) = round2 x := by
  have h := round2_of_hundredths (rhe (100 * x))
  unfold round2
  exact h

theorem round2_sub_round2 (a b : ℚ) :
    round2 (round2 a - round2 b) = round2 a - round2 b := by
  have h : round2 a - round2 b = ((rhe (100 * a) - rhe (100 * b) : ℤ) : ℚ) / 100 := by
    unfold round2
    push_cast
    ring
  rw [h, round2_of_hundredths]

theorem round2_natCast_div100 (k : ℕ) : round2 ((k : ℚ) / 100) = (k : ℚ) / 100 := by
  have h := round2_of_hundredths (k : ℤ)
  push_cast at h ⊢
  exact h

theorem round2_rheSqrt100 (v : ℚ) : round2 (rheSqrt100 v) = rheSqrt100 v := by
  unfold rheSqrt100
  exact round2_natCast_div100 _

/-- C5: the heat-index calculator is exactly the composition
Celsius→Fahrenheit, Rothfusz regression polynomial (spec coefficients),
Fahrenheit→Celsius; being a total function on ℚ × ℚ, it raises nothing
and produces a value for every input. -/
theorem c5_heat_index_is_spec_composition (t r : ℚ) :
    calculate_heat_index t r = spec_f_to_c (spec_rothfusz (spec_c_to_f t) r) := by
  unfold calculate_heat_index spec_f_to_c spec_rothfusz spec_c_to_f
  ring_nf

/-- C2: evaluation of `check_precipitation` on an all-zero precipitation
series.  The short-circuit does fire and does return the mapping
`{"None": 1.0}` with dominant label `"None"`, but the returned dominant
probability is `0.0`, not the `1.0` the claim (and the function's own
contract, probability = probability of the dominant category) states. -/
theorem c2_all_zero_precipitation_eval :
    check_precipitation dfAllZeroPrecip = (0, "None", [("None", 1)]) := by
  with_unfolding_all rfl

/-- C7 counterexample: for the (valid) leap-day target 2024-02-29 and
year count 1, `filter_years` produces no dates at all — the underlying
`Timestamp.replace(year=2023)` raises `ValueError` — refuting the claim
that every target date yields exactly n replaced dates. -/
theorem c7_counterexample_leap_day :
    filter_years ⟨2024, 2, 29⟩ 1 = none := by
  with_unfolding_all rfl

/-- C8 counterexample: on a zero-length series the code returns a
statistics record (count 0 and every other entry NaN, embedded `none`)
instead of signalling an `empty_input` failure — the embedded function
is total and has no failure channel. -/
theorem c8_counterexample_empty_series_record :
    get_column_statistics [] =
      { count := 0, mean := none, std := none, min := none,
        p25 := none, p50 := none, p75 := none, max := none, range := none } := by
  with_unfolding_all rfl

/-- C1 counterexample: on the one-element temperature series [29.5]
(inside the boundary gap (29,30) of the temperature table) every
category count is 0, so the probabilities sum to 0, not to 1 within
1e-9. -/
theorem c1_counterexample_temperature_gap :
    ¬ (|sumProbs (classify_event ([some (59 / 2)] : List (Option ℚ)) catTemp).2.2 - 1|
        ≤ 1 / 1000000000) := by
  have h : sumProbs (classify_event ([some (59 / 2)] : List (Option ℚ)) catTemp).2.2 = 0 := by
    with_unfolding_all rfl
  rw [h]
  norm_num

/-- C10: the classifier divides each category count by `len(series)`
with no guard: the divisor is nonzero exactly on non-empty series, and
on the zero-row series every probability is computed as the unguarded
`count / 0` (NaN in Python, 0 in the exact embedding) while the function
still returns a triple — no `empty_input` failure is signalled. -/
theorem c10_unguarded_division :
    (∀ series : List (Option ℚ), series ≠ [] → ((series.length : ℚ) ≠ 0))
    ∧ (∀ categories : List (String × (ℚ → Bool)),
        (classify_event [] categories).2.2 =
          categories.map (fun c => (c.1, (0 : ℚ) / 0))) := by
  constructor
  · intro s hs
    have hpos : 0 < s.length := List.length_pos.mpr hs
    exact_mod_cast Nat.pos_iff_ne_zero.mp hpos
  · intro cats
    unfold classify_event
    simp

/-- C10 witness: a concrete non-empty series has nonzero divisor, and the
zero-row classification with the humidity table is the unguarded
count-over-zero mapping. -/
theorem c10_unguarded_division_witness :
    (([some (1 : ℚ)] : List (Option ℚ)) ≠ []
      ∧ ((([some (1 : ℚ)] : List (Option ℚ)).length : ℚ) ≠ 0))
    ∧ (classify_event [] catHum).2.2 = catHum.map (fun c => (c.1, (0 : ℚ) / 0)) :=
  ⟨⟨by simp, c10_unguarded_division.1 _ (by simp)⟩, c10_unguarded_division.2 catHum⟩
theorem mapM_option_of_forall {α β : Type} (l : List α) (f : α → Option β) (g : α → β)
    (h : ∀ a ∈ l, f a = some (g a)) : l.mapM f = some (l.map g) := by
  induction l with
  | nil => rfl
  | cons x xs ih =>
    rw [List.mapM_cons, h x (List.mem_cons_self x xs),
      ih (fun a ha => h a (List.mem_cons_of_mem x ha))]
    rfl

/-- C7 (amended) -/
theorem c7_amended_year_series (d : CalDate) (n : ℕ) (hn : 1 ≤ n)
    (hv : ∀ i : ℕ, i < n → isValidYMD (d.year - ((i : ℤ) + 1)) d.month d.day = true) :
    ∃ ds : List CalDate,
      filter_years d n = some ds
      ∧ ds = (List.range n).map (yearShift d)
      ∧ ds.length = n
      ∧ ds.Nodup
      ∧ ds.Pairwise (fun a b => b.year < a.year) := by
  refine ⟨(List.range n).map (yearShift d), ?_, rfl, ?_, ?_, ?_⟩
  · unfold filter_years
    apply mapM_option_of_forall
    intro i hi
    unfold replaceYear yearShift
    rw [if_pos (hv i (List.mem_range.mp hi))]
  · simp
  · refine List.Nodup.map ?_ (List.nodup_range n)
    intro a b hab
    have : d.year - ((a : ℤ) + 1) = d.year - ((b : ℤ) + 1) := congrArg CalDate.year hab
    omega
  · rw [List.pairwise_map]
    refine List.Pairwise.imp ?_ (List.pairwise_lt_range n)
    intro a b hab
    unfold yearShift
    simp only []
    omega

/-- C7 witness -/
theorem c7_amended_year_series_witness :
    (1 ≤ 2 ∧ ∀ i : ℕ, i < 2 → isValidYMD ((2024 : ℤ) - ((i : ℤ) + 1)) 8 15 = true)
    ∧ ∃ ds : List CalDate,
        filter_years ⟨2024, 8, 15⟩ 2 = some ds
        ∧ ds = (List.range 2).map (yearShift ⟨2024, 8, 15⟩)
        ∧ ds.length = 2
        ∧ ds.Nodup
        ∧ ds.Pairwise (fun a b => b.year < a.year) :=
  ⟨⟨by decide, by decide⟩, c7_amended_year_series ⟨2024, 8, 15⟩ 2 (by decide) (by decide)⟩
/-- C8 (amended) -/
theorem c8_amended_column_statistics (s : List (Option ℚ))
    (h : s.filterMap id ≠ []) :
    ∃ M m : ℚ,
      (get_column_statistics s).max = some M
      ∧ (get_column_statistics s).min = some m
      ∧ (get_column_statistics s).range = some (M - m)
      ∧ round2 M = M
      ∧ round2 m = m
      ∧ (∀ x, (get_column_statistics s).mean = some x → round2 x = x)
      ∧ (∀ x, (get_column_statistics s).std = some x → round2 x = x)
      ∧ (∀ x, (get_column_statistics s).p25 = some x → round2 x = x)
      ∧ (∀ x, (get_column_statistics s).p50 = some x → round2 x = x)
      ∧ (∀ x, (get_column_statistics s).p75 = some x → round2 x = x)
      ∧ (get_column_statistics s).mean.isSome = true
      ∧ (get_column_statistics s).p25.isSome = true
      ∧ (get_column_statistics s).p50.isSome = true
      ∧ (get_column_statistics s).p75.isSome = true
      ∧ (get_column_statistics s).count = ((s.filterMap id).length : ℚ) := by
  have hn : (s.filterMap id).length ≠ 0 := fun hc => h (List.length_eq_zero.mp hc)
  have hproj : get_column_statistics s =
      { count := ((s.filterMap id).length : ℚ)
        mean := some (round2 ((s.filterMap id).sum / ((s.filterMap id).length : ℚ)))
        std := if (s.filterMap id).length = 1 then none
               else some (rheSqrt100 (sampleVar (s.filterMap id)))
        min := some (round2 (minOf (s.filterMap id)))
        p25 := some (round2 (quantileLinear (sortQ (s.filterMap id)) (1 / 4)))
        p50 := some (round2 (quantileLinear (sortQ (s.filterMap id)) (1 / 2)))
        p75 := some (round2 (quantileLinear (sortQ (s.filterMap id)) (3 / 4)))
        max := some (round2 (maxOf (s.filterMap id)))
        range := some (round2 (round2 (maxOf (s.filterMap id)) - round2 (minOf (s.filterMap id)))) } := by
    unfold get_column_statistics
    rw [if_neg hn]
  rw [hproj]
  refine ⟨round2 (maxOf (s.filterMap id)), round2 (minOf (s.filterMap id)),
    rfl, rfl, ?_, round2_idem _, round2_idem _, ?_, ?_, ?_, ?_, ?_, rfl, rfl, rfl, rfl, rfl⟩
  · rw [round2_sub_round2]
  · intro x hx
    rw [← Option.some.inj hx, round2_idem]
  · intro x hx
    by_cases h1 : (s.filterMap id).length = 1
    · rw [if_pos h1] at hx
      cases hx
    · rw [if_neg h1] at hx
      rw [← Option.some.inj hx, round2_rheSqrt100]
  · intro x hx
    rw [← Option.some.inj hx, round2_idem]
  · intro x hx
    rw [← Option.some.inj hx, round2_idem]
  · intro x hx
    rw [← Option.some.inj hx, round2_idem]

/-- C8 witness -/
theorem c8_amended_column_statistics_witness :
    (([some 1, some 2, some 3, some 4, some 5] : List (Option ℚ)).filterMap id ≠ [])
    ∧ ∃ M m : ℚ,
      (get_column_statistics [some 1, some 2, some 3, some 4, some 5]).max = some M
      ∧ (get_column_statistics [some 1, some 2, some 3, some 4, some 5]).min = some m
      ∧ (get_column_statistics [some 1, some 2, some 3, some 4, some 5]).range = some (M - m)
      ∧ round2 M = M
      ∧ round2 m = m
      ∧ (∀ x, (get_column_statistics [some 1, some 2, some 3, some 4, some 5]).mean = some x → round2 x = x)
      ∧ (∀ x, (get_column_statistics [some 1, some 2, some 3, some 4, some 5]).std = some x → round2 x = x)
      ∧ (∀ x, (get_column_statistics [some 1, some 2, some 3, some 4, some 5]).p25 = some x → round2 x = x)
      ∧ (∀ x, (get_column_statistics [some 1, some 2, some 3, some 4, some 5]).p50 = some x → round2 x = x)
      ∧ (∀ x, (get_column_statistics [some 1, some 2, some 3, some 4, some 5]).p75 = some x → round2 x = x)
      ∧ (get_column_statistics [some 1, some 2, some 3, some 4, some 5]).mean.isSome = true
      ∧ (get_column_statistics [some 1, some 2, some 3, some 4, some 5]).p25.isSome = true
      ∧ (get_column_statistics [some 1, some 2, some 3, some 4, some 5]).p50.isSome = true
      ∧ (get_column_statistics [some 1, some 2, some 3, some 4, some 5]).p75.isSome = true
      ∧ (get_column_statistics [some 1, some 2, some 3, some 4, some 5]).count =
          ((([some 1, some 2, some 3, some 4, some 5] : List (Option ℚ)).filterMap id).length : ℚ) :=
  ⟨by simp, c8_amended_column_statistics [some 1, some 2, some 3, some 4, some 5] (by simp)⟩

theorem countP_cellSat_map_some (p : ℚ → Bool) (s : List ℚ) :
    (s.map some).countP (cellSat p) = s.countP p := by
  rw [List.countP_map]
  rfl

theorem list_sum_map_div {α : Type} (l : List α) (f : α → ℚ) (d : ℚ) :
    (l.map (fun a => f a / d)).sum = (l.map f).sum / d := by
  induction l with
  | nil => simp
  | cons x xs ih => simp [ih, add_div]

theorem list_sum_map_add {α : Type} (l : List α) (f g : α → ℕ) :
    (l.map (fun a => f a + g a)).sum = (l.map f).sum + (l.map g).sum := by
  induction l with
  | nil => rfl
  | cons x xs ih => simp [ih]; omega

theorem countP_eq_sum_ite {α : Type} (l : List α) (p : α → Bool) :
    l.countP p = (l.map (fun a => if p a then 1 else 0)).sum := by
  induction l with
  | nil => rfl
  | cons x xs ih => rw [List.countP_cons, List.map_cons, List.sum_cons, ih]; omega

theorem count_partition (cats : List (String × (ℚ → Bool))) (s : List ℚ)
    (hcov : ∀ x ∈ s, cats.countP (fun c => c.2 x) = 1) :
    (cats.map (fun c => s.countP c.2)).sum = s.length := by
  induction s with
  | nil => simp
  | cons x xs ih =>
    have hx : cats.countP (fun c => c.2 x) = 1 := hcov x (List.mem_cons_self x xs)
    have hxs : ∀ y ∈ xs, cats.countP (fun c => c.2 y) = 1 :=
      fun y hy => hcov y (List.mem_cons_of_mem x hy)
    calc (cats.map (fun c => (x :: xs).countP c.2)).sum
        = (cats.map (fun c => xs.countP c.2 + if c.2 x then 1 else 0)).sum := by
          simp [List.countP_cons]
      _ = (cats.map (fun c => xs.countP c.2)).sum
            + (cats.map (fun c => if c.2 x then 1 else 0)).sum :=
          list_sum_map_add cats _ _
      _ = xs.length + 1 := by
          rw [ih hxs, ← countP_eq_sum_ite, hx]
      _ = (x :: xs).length := by simp [Nat.add_comm]

theorem sum_probs_one_of_cover (cats : List (String × (ℚ → Bool))) (s : List ℚ)
    (hs : s ≠ [])
    (hcov : ∀ x ∈ s, cats.countP (fun c => c.2 x) = 1) :
    sumProbs (classify_event (s.map some) cats).2.2 = 1 := by
  have hlen : ((s.length : ℚ)) ≠ 0 := by
    exact_mod_cast Nat.pos_iff_ne_zero.mp (List.length_pos.mpr hs)
  unfold classify_event sumProbs
  simp only [List.map_map]
  have hfun : ((fun p : String × ℚ => p.2) ∘
      fun c : String × (ℚ → Bool) =>
        (c.1, ((s.map some).countP (cellSat c.2) : ℚ) / (((s.map some).length : ℚ)))) =
      fun c : String × (ℚ → Bool) => ((s.countP c.2 : ℚ) / (s.length : ℚ)) := by
    funext c
    simp [countP_cellSat_map_some]
    rfl
  rw [hfun, list_sum_map_div]
  have hsum : (cats.map (fun c => ((s.countP c.2 : ℕ) : ℚ))).sum = ((s.length : ℕ) : ℚ) := by
    rw [show (cats.map (fun c => ((s.countP c.2 : ℕ) : ℚ))) =
        (cats.map (fun c => s.countP c.2)).map (fun n : ℕ => (n : ℚ)) by rw [List.map_map]; rfl]
    rw [← Nat.cast_list_sum, count_partition cats s hcov]
  rw [hsum, div_self hlen]

theorem cover_hum (x : ℚ) : catHum.countP (fun c => c.2 x) = 1 := by
  unfold catHum
  by_cases h1 : x < 60
  · have h1' : ¬ 60 ≤ x := not_le.mpr h1
    have h2' : ¬ 80 ≤ x := not_le.mpr (h1.trans_le (by norm_num))
    simp [List.countP_cons, h1, h1', h2']
  · have h1' : 60 ≤ x := not_lt.mp h1
    by_cases h2 : x < 80
    · have h2' : ¬ 80 ≤ x := not_le.mpr h2
      simp [List.countP_cons, h1, h1', h2, h2']
    · have h2' : 80 ≤ x := not_lt.mp h2
      simp [List.countP_cons, h1, h1', h2, h2']

theorem cover_wind (x : ℚ) : catWind.countP (fun c => c.2 x) = 1 := by
  unfold catWind
  by_cases h3 : x < 3
  · have a1 : ¬ 3 ≤ x := not_le.mpr h3
    have h6 : x < 6 := h3.trans_le (by norm_num)
    have a2 : ¬ 6 ≤ x := not_le.mpr h6
    have h10 : x < 10 := h3.trans_le (by norm_num)
    have a3 : ¬ 10 ≤ x := not_le.mpr h10
    simp [List.countP_cons, h3, a1, a2, a3]
  · have a1 : 3 ≤ x := not_lt.mp h3
    by_cases h6 : x < 6
    · have a2 : ¬ 6 ≤ x := not_le.mpr h6
      have a3 : ¬ 10 ≤ x := not_le.mpr (h6.trans_le (by norm_num))
      simp [List.countP_cons, h3, a1, h6, a2, a3]
    · have a2 : 6 ≤ x := not_lt.mp h6
      by_cases h10 : x < 10
      · have a3 : ¬ 10 ≤ x := not_le.mpr h10
        simp [List.countP_cons, h3, a1, h6, a2, h10, a3]
      · have a3 : 10 ≤ x := not_lt.mp h10
        simp [List.countP_cons, h3, a1, h6, a2, h10, a3]

theorem cover_hi (x : ℚ) : catHI.countP (fun c => c.2 x) = 1 := by
  unfold catHI
  by_cases h27 : x < 27
  · have a1 : ¬ 27 ≤ x := not_le.mpr h27
    have a2 : ¬ 32 ≤ x := not_le.mpr (h27.trans_le (by norm_num))
    have a3 : ¬ 41 ≤ x := not_le.mpr (h27.trans_le (by norm_num))
    have a4 : ¬ 54 ≤ x := not_le.mpr (h27.trans_le (by norm_num))
    simp [List.countP_cons, h27, a1, a2, a3, a4]
  · have a1 : 27 ≤ x := not_lt.mp h27
    by_cases h32 : x < 32
    · have a2 : ¬ 32 ≤ x := not_le.mpr h32
      have a3 : ¬ 41 ≤ x := not_le.mpr (h32.trans_le (by norm_num))
      have a4 : ¬ 54 ≤ x := not_le.mpr (h32.trans_le (by norm_num))
      simp [List.countP_cons, h27, a1, h32, a2, a3, a4]
    · have a2 : 32 ≤ x := not_lt.mp h32
      by_cases h41 : x < 41
      · have a3 : ¬ 41 ≤ x := not_le.mpr h41
        have a4 : ¬ 54 ≤ x := not_le.mpr (h41.trans_le (by norm_num))
        simp [List.countP_cons, h27, a1, h32, a2, h41, a3, a4]
      · have a3 : 41 ≤ x := not_lt.mp h41
        by_cases h54 : x < 54
        · have a4 : ¬ 54 ≤ x := not_le.mpr h54
          simp [List.countP_cons, h27, a1, h32, a2, h41, a3, h54, a4]
        · have a4 : 54 ≤ x := not_lt.mp h54
          simp [List.countP_cons, h27, a1, h32, a2, h41, a3, h54, a4]

theorem cover_precip (x : ℚ) (hx : 0 < x) : catPrecip.countP (fun c => c.2 x) = 1 := by
  unfold catPrecip
  by_cases h2 : x ≤ 2
  · have a1 : ¬ 2 < x := not_lt.mpr h2
    have a2 : ¬ 10 < x := not_lt.mpr (h2.trans (by norm_num))
    have a3 : x ≤ 10 := h2.trans (by norm_num)
    simp [List.countP_cons, hx, h2, a1, a2, a3]
  · have a1 : 2 < x := not_le.mp h2
    by_cases h10 : x ≤ 10
    · have a2 : ¬ 10 < x := not_lt.mpr h10
      simp [List.countP_cons, hx, h2, a1, h10, a2]
    · have a2 : 10 < x := not_le.mp h10
      simp [List.countP_cons, hx, h2, a1, h10, a2]

theorem cover_temp (x : ℚ)
    (hx : ¬ ((10 < x ∧ x < 11) ∨ (19 < x ∧ x < 20) ∨ (29 < x ∧ x < 30))) :
    catTemp.countP (fun c => c.2 x) = 1 := by
  unfold catTemp
  push_neg at hx
  obtain ⟨g1, g2, g3⟩ := hx
  by_cases h40 : 40 ≤ x
  · have a1 : ¬ x < 40 := not_lt.mpr h40
    have b35 : 35 ≤ x := le_trans (by norm_num) h40
    have b30 : 30 ≤ x := le_trans (by norm_num) h40
    have b20 : 20 ≤ x := le_trans (by norm_num) h40
    have c29 : ¬ x ≤ 29 := by linarith
    have c19 : ¬ x ≤ 19 := by linarith
    have c10 : ¬ x ≤ 10 := by linarith
    have c5 : ¬ x ≤ 5 := by linarith
    simp [List.countP_cons, h40, a1, b35, b30, b20, c29, c19, c10, c5]
  · have a1 : x < 40 := not_le.mp h40
    by_cases h35 : 35 ≤ x
    · have b30 : 30 ≤ x := le_trans (by norm_num) h35
      have b20 : 20 ≤ x := le_trans (by norm_num) h35
      have c35 : ¬ x < 35 := not_lt.mpr h35
      have c29 : ¬ x ≤ 29 := by linarith
      have c19 : ¬ x ≤ 19 := by linarith
      have c10 : ¬ x ≤ 10 := by linarith
      have c5 : ¬ x ≤ 5 := by linarith
      simp [List.countP_cons, h40, a1, h35, b30, b20, c35, c29, c19, c10, c5]
    · have a2 : x < 35 := not_le.mp h35
      by_cases h30 : 30 ≤ x
      · have b20 : 20 ≤ x := le_trans (by norm_num) h30
        have c29 : ¬ x ≤ 29 := by linarith
        have c19 : ¬ x ≤ 19 := by linarith
        have c10 : ¬ x ≤ 10 := by linarith
        have c5 : ¬ x ≤ 5 := by linarith
        simp [List.countP_cons, h40, a1, h35, a2, h30, b20, c29, c19, c10, c5]
      · have a3 : x < 30 := not_le.mp h30
        by_cases h20 : 20 ≤ x
        · have c29 : x ≤ 29 := by
            by_contra hc
            push_neg at hc
            linarith [g3 hc]
          have c19 : ¬ x ≤ 19 := by linarith
          have c10 : ¬ x ≤ 10 := by linarith
          have c5 : ¬ x ≤ 5 := by linarith
          simp [List.countP_cons, h40, a1, h35, a2, h30, a3, h20, c29, c19, c10, c5]
        · have a4 : x < 20 := not_le.mp h20
          by_cases h11 : 11 ≤ x
          · have c19 : x ≤ 19 := by
              by_contra hc
              push_neg at hc
              linarith [g2 hc]
            have c29 : x ≤ 29 := by linarith
            have c10 : ¬ x ≤ 10 := by linarith
            have c5 : ¬ x ≤ 5 := by linarith
            simp [List.countP_cons, h40, a1, h35, a2, h30, a3, h20, a4, h11, c19, c29, c10, c5]
          · have a5 : x < 11 := not_le.mp h11
            have c10 : x ≤ 10 := by
              by_contra hc
              push_neg at hc
              linarith [g1 hc]
            by_cases h5 : x ≤ 5
            · have c5 : ¬ 5 < x := not_lt.mpr h5
              simp [List.countP_cons, h40, a1, h35, a2, h30, a3, h20, a4, h11, a5, c10, h5, c5]
            · have c5 : 5 < x := not_le.mp h5
              simp [List.countP_cons, h40, a1, h35, a2, h30, a3, h20, a4, h11, a5, c10, h5, c5]

/-- C1 (amended) -/
theorem c1_amended_probability_simplex (s : List ℚ) (hs : s ≠ []) :
    (∀ cats : List (String × (ℚ → Bool)),
        ∀ p ∈ (classify_event (s.map some) cats).2.2, 0 ≤ p.2 ∧ p.2 ≤ 1)
    ∧ sumProbs (classify_event (s.map some) catHum).2.2 = 1
    ∧ sumProbs (classify_event (s.map some) catWind).2.2 = 1
    ∧ sumProbs (classify_event (s.map some) catHI).2.2 = 1
    ∧ ((∀ x ∈ s, ¬ ((10 < x ∧ x < 11) ∨ (19 < x ∧ x < 20) ∨ (29 < x ∧ x < 30))) →
        sumProbs (classify_event (s.map some) catTemp).2.2 = 1)
    ∧ ((∀ x ∈ s, 0 < x) → sumProbs (classify_event (s.map some) catPrecip).2.2 = 1) := by
  have hlen : (0 : ℚ) < (s.length : ℚ) := by
    exact_mod_cast List.length_pos.mpr hs
  refine ⟨?_,
    sum_probs_one_of_cover catHum s hs (fun x _ => cover_hum x),
    sum_probs_one_of_cover catWind s hs (fun x _ => cover_wind x),
    sum_probs_one_of_cover catHI s hs (fun x _ => cover_hi x),
    fun hcov => sum_probs_one_of_cover catTemp s hs (fun x hx => cover_temp x (hcov x hx)),
    fun hpos => sum_probs_one_of_cover catPrecip s hs (fun x hx => cover_precip x (hpos x hx))⟩
  intro cats p hp
  obtain ⟨c, hc, hpc⟩ := List.mem_map.mp hp
  have hcount : ((s.map some).countP (cellSat c.2) : ℚ) ≤ (s.length : ℚ) := by
    have := List.countP_le_length (l := s.map some) (p := cellSat c.2)
    rw [List.length_map] at this
    exact_mod_cast this
  constructor
  · rw [← hpc]
    simp only [List.length_map]
    positivity
  · rw [← hpc]
    simp only [List.length_map]
    exact div_le_one_of_le₀ hcount (le_of_lt hlen)

/-- C1 witness -/
theorem c1_amended_probability_simplex_witness :
    (([25] : List ℚ) ≠ [])
    ∧ ((∀ cats : List (String × (ℚ → Bool)),
        ∀ p ∈ (classify_event (([25] : List ℚ).map some) cats).2.2, 0 ≤ p.2 ∧ p.2 ≤ 1)
    ∧ sumProbs (classify_event (([25] : List ℚ).map some) catHum).2.2 = 1
    ∧ sumProbs (classify_event (([25] : List ℚ).map some) catWind).2.2 = 1
    ∧ sumProbs (classify_event (([25] : List ℚ).map some) catHI).2.2 = 1
    ∧ ((∀ x ∈ ([25] : List ℚ), ¬ ((10 < x ∧ x < 11) ∨ (19 < x ∧ x < 20) ∨ (29 < x ∧ x < 30))) →
        sumProbs (classify_event (([25] : List ℚ).map some) catTemp).2.2 = 1)
    ∧ ((∀ x ∈ ([25] : List ℚ), 0 < x) →
        sumProbs (classify_event (([25] : List ℚ).map some) catPrecip).2.2 = 1)) :=
  ⟨by simp, c1_amended_probability_simplex [25] (by simp)⟩

theorem foldl_first_max_spec (es : List (String × ℚ)) (e : String × ℚ) :
    (e.2 ≤ (es.foldl (fun b p => if b.2 < p.2 then p else b) e).2
      ∧ ∀ q ∈ es, q.2 ≤ (es.foldl (fun b p => if b.2 < p.2 then p else b) e).2)
    ∧ ((es.foldl (fun b p => if b.2 < p.2 then p else b) e) = e
        ∨ ∃ l1 l2, es = l1 ++ (es.foldl (fun b p => if b.2 < p.2 then p else b) e) :: l2
            ∧ e.2 < (es.foldl (fun b p => if b.2 < p.2 then p else b) e).2
            ∧ ∀ q ∈ l1, q.2 < (es.foldl (fun b p => if b.2 < p.2 then p else b) e).2) := by
  induction es generalizing e with
  | nil => exact ⟨⟨le_refl _, by simp⟩, Or.inl rfl⟩
  | cons q qs ih =>
    by_cases hq : e.2 < q.2
    · have hstep : (q :: qs).foldl (fun b p => if b.2 < p.2 then p else b) e
          = qs.foldl (fun b p => if b.2 < p.2 then p else b) q := by
        rw [List.foldl_cons, if_pos hq]
      rw [hstep]
      obtain ⟨⟨hq_le, hall⟩, hpos⟩ := ih q
      set r := qs.foldl (fun b p => if b.2 < p.2 then p else b) q with hr
      refine ⟨⟨le_of_lt (lt_of_lt_of_le hq hq_le), ?_⟩, ?_⟩
      · intro w hw
        rcases List.mem_cons.mp hw with h | h
        · rw [h]; exact hq_le
        · exact hall w h
      · rcases hpos with heq | ⟨l1, l2, hsplit, hlt, hl1⟩
        · refine Or.inr ⟨[], qs, ?_, ?_, by simp⟩
          · rw [heq]
            rfl
          · rw [heq]; exact hq
        · refine Or.inr ⟨q :: l1, l2, ?_, lt_of_lt_of_le hq hq_le, ?_⟩
          · rw [hsplit]
            rfl
          · intro w hw
            rcases List.mem_cons.mp hw with h | h
            · rw [h]; exact hlt
            · exact hl1 w h
    · have hstep : (q :: qs).foldl (fun b p => if b.2 < p.2 then p else b) e
          = qs.foldl (fun b p => if b.2 < p.2 then p else b) e := by
        rw [List.foldl_cons, if_neg hq]
      rw [hstep]
      obtain ⟨⟨he_le, hall⟩, hpos⟩ := ih e
      set r := qs.foldl (fun b p => if b.2 < p.2 then p else b) e with hr
      refine ⟨⟨he_le, ?_⟩, ?_⟩
      · intro w hw
        rcases List.mem_cons.mp hw with h | h
        · rw [h]; exact le_trans (not_lt.mp hq) he_le
        · exact hall w h
      · rcases hpos with heq | ⟨l1, l2, hsplit, hlt, hl1⟩
        · exact Or.inl heq
        · refine Or.inr ⟨q :: l1, l2, ?_, hlt, ?_⟩
          · rw [hsplit]
            rfl
          · intro w hw
            rcases List.mem_cons.mp hw with h | h
            · rw [h]; exact lt_of_le_of_lt (not_lt.mp hq) hlt
            · exact hl1 w h

/-- C4 -/
theorem c4_dominant_first_max (series : List (Option ℚ))
    (cats : List (String × (ℚ → Bool))) (hs : series ≠ []) (hc : cats ≠ []) :
    ((classify_event series cats).2.2.map (fun p => p.1)) = cats.map (fun c => c.1)
    ∧ (∀ q ∈ (classify_event series cats).2.2, q.2 ≤ (classify_event series cats).1)
    ∧ ∃ l1 l2,
        (classify_event series cats).2.2
          = l1 ++ ((classify_event series cats).2.1, (classify_event series cats).1) :: l2
        ∧ ∀ q ∈ l1, q.2 < (classify_event series cats).1 := by
  obtain ⟨c, cs, rfl⟩ := List.exists_cons_of_ne_nil hc
  have hev : (classify_event series (c :: cs)).2.2 =
      (fun c : String × (ℚ → Bool) =>
        (c.1, ((series.countP (cellSat c.2) : ℚ) / ((series.length : ℚ))))) c ::
      cs.map (fun c : String × (ℚ → Bool) =>
        (c.1, ((series.countP (cellSat c.2) : ℚ) / ((series.length : ℚ))))) := rfl
  set f := fun c : String × (ℚ → Bool) =>
    (c.1, ((series.countP (cellSat c.2) : ℚ) / ((series.length : ℚ)))) with hf
  obtain ⟨⟨hfe, hall⟩, hpos⟩ := foldl_first_max_spec (cs.map f) (f c)
  set r := (cs.map f).foldl (fun b p => if b.2 < p.2 then p else b) (f c) with hrdef
  have hbest : ((classify_event series (c :: cs)).2.1, (classify_event series (c :: cs)).1)
      = r := rfl
  have hprob : (classify_event series (c :: cs)).1 = r.2 := rfl
  refine ⟨?_, ?_, ?_⟩
  · rw [hev]
    simp [hf]
  · intro q hq
    rw [hprob]
    rcases List.mem_cons.mp (hev ▸ hq) with h | h
    · rw [h]; exact hfe
    · exact hall q h
  · rcases hpos with heq | ⟨l1, l2, hsplit, hlt, hl1⟩
    · refine ⟨[], cs.map f, ?_, by simp⟩
      rw [hev, hbest, heq]
      rfl
    · refine ⟨f c :: l1, l2, ?_, ?_⟩
      · rw [hev, hbest, hsplit]
        rfl
      · intro q hq
        rw [hprob]
        rcases List.mem_cons.mp hq with h | h
        · rw [h]; exact hlt
        · exact hl1 q h

/-- C4 witness -/
theorem c4_dominant_first_max_witness :
    (([some 50, some 70] : List (Option ℚ)) ≠ [] ∧ catHum ≠ [])
    ∧ ((classify_event [some 50, some 70] catHum).2.2.map (fun p => p.1)
        = catHum.map (fun c => c.1)
    ∧ (∀ q ∈ (classify_event [some 50, some 70] catHum).2.2,
        q.2 ≤ (classify_event [some 50, some 70] catHum).1)
    ∧ ∃ l1 l2,
        (classify_event [some 50, some 70] catHum).2.2
          = l1 ++ ((classify_event [some 50, some 70] catHum).2.1,
                   (classify_event [some 50, some 70] catHum).1) :: l2
        ∧ ∀ q ∈ l1, q.2 < (classify_event [some 50, some 70] catHum).1) :=
  ⟨⟨by simp, by simp [catHum]⟩,
    c4_dominant_first_max [some 50, some 70] catHum (by simp) (by simp [catHum])⟩

theorem format_data_of_failure (provider : Provider) (lat lon : ℚ) (s e : CalDate)
    (hfail : FetchFailure (provider (build_url lat lon s e))) :
    (∃ er, format_data provider lat lon s e = .error er)
    ∨ format_data provider lat lon s e = .ok .noColumns := by
  unfold format_data
  cases hp : provider (build_url lat lon s e) with
  | none =>
    left
    exact ⟨.transport, rfl⟩
  | some resp =>
    rw [hp] at hfail
    by_cases hst : resp.status_code = 200
    · have hbody := hfail
      unfold FetchFailure at hbody
      rcases hbody with h | h | h | ⟨p, hp2, hal⟩
      · exact absurd hst h
      · left
        refine ⟨.badJson, ?_⟩
        simp [fetch_data, hst, h]
      · left
        refine ⟨.malformedPayload, ?_⟩
        simp [fetch_data, process_data, hst, h]
      · left
        refine ⟨.raggedColumns, ?_⟩
        simp [fetch_data, process_data, hst, hp2, hal]
    · right
      simp [fetch_data, process_data, clean_data, hst]

theorem aggYears_fails (provider : Provider) (lat lon : ℚ) (days : ℕ)
    (ds : List CalDate) (d : CalDate) (hd : d ∈ ds)
    (hfail : FetchFailure (provider
      (build_url lat lon (filter_date d days).1 (filter_date d days).2))) :
    ∃ er, aggYears provider lat lon days ds = .error er := by
  induction ds with
  | nil => cases hd
  | cons a as ih =>
    rcases List.mem_cons.mp hd with h | h
    · subst h
      rcases format_data_of_failure provider lat lon
          (filter_date d days).1 (filter_date d days).2 hfail with ⟨er, herr⟩ | hok
      · refine ⟨er, ?_⟩
        unfold aggYears
        simp only [herr]
      · refine ⟨.keyError, ?_⟩
        unfold aggYears
        simp only [hok]
    · obtain ⟨er, herr⟩ := ih h
      cases hfmt : format_data provider lat lon (filter_date a days).1 (filter_date a days).2 with
      | error e2 =>
        refine ⟨e2, ?_⟩
        unfold aggYears
        simp only [hfmt]
      | ok df =>
        cases df with
        | noColumns =>
          refine ⟨.keyError, ?_⟩
          unfold aggYears
          simp only [hfmt]
        | table t =>
          refine ⟨er, ?_⟩
          unfold aggYears
          simp only [hfmt, herr]

/-- C3 -/
theorem c3_fetch_failure_aborts_aggregation (provider : Provider) (lat lon : ℚ)
    (target_date : CalDate) (days years : ℕ) (dates : List CalDate) (d : CalDate)
    (hdates : filter_years target_date years = some dates)
    (hd : d ∈ dates)
    (hfail : FetchFailure (provider
      (build_url lat lon (filter_date d days).1 (filter_date d days).2))) :
    ∃ er, get_combined_dataframe provider lat lon target_date days years = .error er := by
  obtain ⟨er, herr⟩ := aggYears_fails provider lat lon days dates d hd hfail
  refine ⟨er, ?_⟩
  unfold get_combined_dataframe
  rw [hdates]
  simp only [herr]

/-- C3 witness -/
theorem c3_fetch_failure_aborts_aggregation_witness :
    (filter_years ⟨2024, 8, 15⟩ 1 = some [⟨2023, 8, 15⟩]
      ∧ (⟨2023, 8, 15⟩ : CalDate) ∈ [(⟨2023, 8, 15⟩ : CalDate)]
      ∧ FetchFailure (deadProvider
          (build_url 0 0 (filter_date ⟨2023, 8, 15⟩ 2).1 (filter_date ⟨2023, 8, 15⟩ 2).2)))
    ∧ ∃ er, get_combined_dataframe deadProvider 0 0 ⟨2024, 8, 15⟩ 2 1 = .error er :=
  ⟨⟨by with_unfolding_all rfl, by simp, trivial⟩,
    c3_fetch_failure_aborts_aggregation deadProvider 0 0 ⟨2024, 8, 15⟩ 2 1
      [⟨2023, 8, 15⟩] ⟨2023, 8, 15⟩ (by with_unfolding_all rfl) (by simp) trivial⟩

theorem get?_map_cells (f : Option ℚ → Option ℚ) (l : List (Option ℚ)) (i : ℕ) :
    (l.map f).get? i = (l.get? i).map f := by
  induction l generalizing i with
  | nil => cases i <;> rfl
  | cons x xs ih => cases i with
    | zero => rfl
    | succ n => exact ih n

/-- C9 -/
theorem c9_mean_imputation :
    (∀ t : ObsTable, clean_data (.table t) = .table
        { dates := t.dates, precip := fillColumn t.precip, temp := fillColumn t.temp,
          ws2 := fillColumn t.ws2, ws10 := fillColumn t.ws10, rh := fillColumn t.rh,
          qv := fillColumn t.qv })
    ∧ (∀ c : List (Option ℚ), (fillColumn c).length = c.length)
    ∧ (∀ (c : List (Option ℚ)) (i : ℕ) (v : ℚ),
        c.get? i = some (some v) → (fillColumn c).get? i = some (some v))
    ∧ (∀ (c : List (Option ℚ)) (i : ℕ),
        c.get? i = some none →
        (c.filterMap id = [] → (fillColumn c).get? i = some none)
        ∧ (c.filterMap id ≠ [] →
            (fillColumn c).get? i =
              some (some ((c.filterMap id).sum / ((c.filterMap id).length : ℚ))))) := by
  refine ⟨fun t => rfl, ?_, ?_, ?_⟩
  · intro c
    unfold fillColumn
    by_cases hp : (c.filterMap id).isEmpty
    · rw [if_pos hp]
    · rw [if_neg hp]
      exact List.length_map c _
  · intro c i v hci
    unfold fillColumn
    by_cases hp : (c.filterMap id).isEmpty
    · rw [if_pos hp]
      exact hci
    · rw [if_neg hp]
      rw [get?_map_cells, hci]
      rfl
  · intro c i hci
    constructor
    · intro hempty
      unfold fillColumn
      rw [if_pos (by rw [hempty]; rfl)]
      exact hci
    · intro hne
      unfold fillColumn
      rw [if_neg (fun hc => hne (List.isEmpty_iff.mp hc))]
      rw [get?_map_cells, hci]
      rfl

/-- C9 witness -/
theorem c9_mean_imputation_witness :
    (([some 1, none, some 3] : List (Option ℚ)).get? 1 = some none
      ∧ ([some 1, none, some 3] : List (Option ℚ)).filterMap id ≠ [])
    ∧ (fillColumn [some 1, none, some 3]).get? 1 =
        some (some ((([some 1, none, some 3] : List (Option ℚ)).filterMap id).sum /
          ((([some 1, none, some 3] : List (Option ℚ)).filterMap id).length : ℚ))) :=
  ⟨⟨rfl, by simp⟩,
    (c9_mean_imputation.2.2.2 [some 1, none, some 3] 1 rfl).2 (by simp)⟩

theorem fillColumn_all_some (f : CalDate → ℚ) (ds : List CalDate) :
    fillColumn (ds.map (fun d => some (f d))) = ds.map (fun d => some (f d)) := by
  cases ds with
  | nil => rfl
  | cons a as =>
    unfold fillColumn
    rw [if_neg (by simp)]
    rw [List.map_map]
    rfl

theorem cleanTable_ideal (vals : CalDate → SixVals) (ds : List CalDate) :
    cleanTable (tableOfVals vals ds) = tableOfVals vals ds := by
  unfold cleanTable tableOfVals
  simp only [fillColumn_all_some]

theorem zipWith_hiCell_map (f g : CalDate → ℚ) (ds : List CalDate) :
    List.zipWith hiCell (ds.map (fun d => some (f d))) (ds.map (fun d => some (g d)))
      = ds.map (fun d => some (calculate_heat_index (f d) (g d))) := by
  induction ds with
  | nil => rfl
  | cons a as ih => simp only [List.map_cons, List.zipWith_cons_cons, ih]; rfl

theorem add_heat_index_ideal (vals : CalDate → SixVals) (ds : List CalDate) :
    add_heat_index (tableOfVals vals ds) = idealTableH vals ds := by
  unfold add_heat_index tableOfVals idealTableH
  simp only [zipWith_hiCell_map]

theorem paramsAligned_mkParams (vals : CalDate → SixVals) (ds : List CalDate) :
    paramsAligned (mkParams vals ds) = true := by
  simp [paramsAligned, mkParams]

theorem process_data_good (vals : CalDate → SixVals) (ds : List CalDate) :
    process_data (some (.params (mkParams vals ds))) = .ok (.table (tableOfVals vals ds)) := by
  unfold process_data
  simp only [paramsAligned_mkParams, if_true]
  unfold mkParams tableOfVals
  simp only [List.map_map]
  have h1 : List.map ((fun kv : CalDate × Option ℚ => kv.1) ∘
      fun d => (d, some (vals d).vPrecip)) ds = ds := by
    induction ds with
    | nil => rfl
    | cons a as ih => simp only [List.map_cons, ih]; rfl
  have h2 : List.map ((fun kv : CalDate × Option ℚ => kv.2) ∘
      fun d => (d, some (vals d).vPrecip)) ds
      = List.map (fun d => some (vals d).vPrecip) ds := by
    induction ds with
    | nil => rfl
    | cons a as ih => simp only [List.map_cons, ih]; rfl
  rw [h1, h2]

theorem format_data_good (provider : Provider) (vals : CalDate → SixVals)
    (lat lon : ℚ) (s e : CalDate)
    (H : provider (build_url lat lon s e) = goodResponse vals s e) :
    format_data provider lat lon s e = .ok (.table (tableOfVals vals (dateRange s e))) := by
  unfold format_data
  rw [H]
  unfold goodResponse fetch_data
  simp only [if_pos rfl, if_true, process_data_good]
  simp only [clean_data, cleanTable_ideal]

/-- C6 -/
theorem c6_end_to_end_scenario (provider : Provider) (vals : CalDate → SixVals)
    (H : ∀ s e : CalDate, provider (build_url (24.8 : ℚ) (68 : ℚ) s e) = goodResponse vals s e) :
    ∃ (final : ObsTableH) (recs : List YearRecord),
      get_combined_dataframe provider (24.8 : ℚ) (68 : ℚ) ⟨2024, 8, 15⟩ 2 3 = .ok (final, recs)
      ∧ recs.map (fun r => r.Year) = [2023, 2022, 2021]
      ∧ recs.map (fun r => r.TDate) = [⟨2023, 8, 15⟩, ⟨2022, 8, 15⟩, ⟨2021, 8, 15⟩]
      ∧ recs.map (fun r => r.Start) = [⟨2023, 8, 13⟩, ⟨2022, 8, 13⟩, ⟨2021, 8, 13⟩]
      ∧ recs.map (fun r => r.Stop) = [⟨2023, 8, 17⟩, ⟨2022, 8, 17⟩, ⟨2021, 8, 17⟩]
      ∧ recs.map (fun r => r.df.dates) =
          [[⟨2023, 8, 13⟩, ⟨2023, 8, 14⟩, ⟨2023, 8, 15⟩, ⟨2023, 8, 16⟩, ⟨2023, 8, 17⟩],
           [⟨2022, 8, 13⟩, ⟨2022, 8, 14⟩, ⟨2022, 8, 15⟩, ⟨2022, 8, 16⟩, ⟨2022, 8, 17⟩],
           [⟨2021, 8, 13⟩, ⟨2021, 8, 14⟩, ⟨2021, 8, 15⟩, ⟨2021, 8, 16⟩, ⟨2021, 8, 17⟩]]
      ∧ final = concat_tables (recs.map (fun r => r.df))
      ∧ final.dates =
          [⟨2023, 8, 13⟩, ⟨2023, 8, 14⟩, ⟨2023, 8, 15⟩, ⟨2023, 8, 16⟩, ⟨2023, 8, 17⟩,
           ⟨2022, 8, 13⟩, ⟨2022, 8, 14⟩, ⟨2022, 8, 15⟩, ⟨2022, 8, 16⟩, ⟨2022, 8, 17⟩,
           ⟨2021, 8, 13⟩, ⟨2021, 8, 14⟩, ⟨2021, 8, 15⟩, ⟨2021, 8, 16⟩, ⟨2021, 8, 17⟩]
      ∧ final.dates.length = 15 := by
  have hfy : filter_years ⟨2024, 8, 15⟩ 3 =
      some [⟨2023, 8, 15⟩, ⟨2022, 8, 15⟩, ⟨2021, 8, 15⟩] := by with_unfolding_all rfl
  have hfd23 : filter_date ⟨2023, 8, 15⟩ 2 = (⟨2023, 8, 13⟩, ⟨2023, 8, 17⟩) := by
    with_unfolding_all rfl
  have hfd22 : filter_date ⟨2022, 8, 15⟩ 2 = (⟨2022, 8, 13⟩, ⟨2022, 8, 17⟩) := by
    with_unfolding_all rfl
  have hfd21 : filter_date ⟨2021, 8, 15⟩ 2 = (⟨2021, 8, 13⟩, ⟨2021, 8, 17⟩) := by
    with_unfolding_all rfl
  have hdr23 : dateRange ⟨2023, 8, 13⟩ ⟨2023, 8, 17⟩ =
      [⟨2023, 8, 13⟩, ⟨2023, 8, 14⟩, ⟨2023, 8, 15⟩, ⟨2023, 8, 16⟩, ⟨2023, 8, 17⟩] := by
    with_unfolding_all rfl
  have hdr22 : dateRange ⟨2022, 8, 13⟩ ⟨2022, 8, 17⟩ =
      [⟨2022, 8, 13⟩, ⟨2022, 8, 14⟩, ⟨2022, 8, 15⟩, ⟨2022, 8, 16⟩, ⟨2022, 8, 17⟩] := by
    with_unfolding_all rfl
  have hdr21 : dateRange ⟨2021, 8, 13⟩ ⟨2021, 8, 17⟩ =
      [⟨2021, 8, 13⟩, ⟨2021, 8, 14⟩, ⟨2021, 8, 15⟩, ⟨2021, 8, 16⟩, ⟨2021, 8, 17⟩] := by
    with_unfolding_all rfl
  have hfmt23 : format_data provider (24.8 : ℚ) (68 : ℚ) ⟨2023, 8, 13⟩ ⟨2023, 8, 17⟩ =
      .ok (.table (tableOfVals vals
        [⟨2023, 8, 13⟩, ⟨2023, 8, 14⟩, ⟨2023, 8, 15⟩, ⟨2023, 8, 16⟩, ⟨2023, 8, 17⟩])) := by
    rw [format_data_good provider vals _ _ _ _ (H _ _), hdr23]
  have hfmt22 : format_data provider (24.8 : ℚ) (68 : ℚ) ⟨2022, 8, 13⟩ ⟨2022, 8, 17⟩ =
      .ok (.table (tableOfVals vals
        [⟨2022, 8, 13⟩, ⟨2022, 8, 14⟩, ⟨2022, 8, 15⟩, ⟨2022, 8, 16⟩, ⟨2022, 8, 17⟩])) := by
    rw [format_data_good provider vals _ _ _ _ (H _ _), hdr22]
  have hfmt21 : format_data provider (24.8 : ℚ) (68 : ℚ) ⟨2021, 8, 13⟩ ⟨2021, 8, 17⟩ =
      .ok (.table (tableOfVals vals
        [⟨2021, 8, 13⟩, ⟨2021, 8, 14⟩, ⟨2021, 8, 15⟩, ⟨2021, 8, 16⟩, ⟨2021, 8, 17⟩])) := by
    rw [format_data_good provider vals _ _ _ _ (H _ _), hdr21]
  have hagg : aggYears provider (24.8 : ℚ) (68 : ℚ) 2
      [⟨2023, 8, 15⟩, ⟨2022, 8, 15⟩, ⟨2021, 8, 15⟩] =
      .ok [mkYearRecord ⟨2023, 8, 15⟩ ⟨2023, 8, 13⟩ ⟨2023, 8, 17⟩ (idealTableH vals
              [⟨2023, 8, 13⟩, ⟨2023, 8, 14⟩, ⟨2023, 8, 15⟩, ⟨2023, 8, 16⟩, ⟨2023, 8, 17⟩]),
            mkYearRecord ⟨2022, 8, 15⟩ ⟨2022, 8, 13⟩ ⟨2022, 8, 17⟩ (idealTableH vals
              [⟨2022, 8, 13⟩, ⟨2022, 8, 14⟩, ⟨2022, 8, 15⟩, ⟨2022, 8, 16⟩, ⟨2022, 8, 17⟩]),
            mkYearRecord ⟨2021, 8, 15⟩ ⟨2021, 8, 13⟩ ⟨2021, 8, 17⟩ (idealTableH vals
              [⟨2021, 8, 13⟩, ⟨2021, 8, 14⟩, ⟨2021, 8, 15⟩, ⟨2021, 8, 16⟩, ⟨2021, 8, 17⟩])] := by
    simp only [aggYears, hfd23, hfd22, hfd21, hfmt23, hfmt22, hfmt21, add_heat_index_ideal]
  have hgcd : get_combined_dataframe provider (24.8 : ℚ) (68 : ℚ) ⟨2024, 8, 15⟩ 2 3 =
      .ok (concat_tables (List.map (fun r => r.df)
            [mkYearRecord ⟨2023, 8, 15⟩ ⟨2023, 8, 13⟩ ⟨2023, 8, 17⟩ (idealTableH vals
                [⟨2023, 8, 13⟩, ⟨2023, 8, 14⟩, ⟨2023, 8, 15⟩, ⟨2023, 8, 16⟩, ⟨2023, 8, 17⟩]),
              mkYearRecord ⟨2022, 8, 15⟩ ⟨2022, 8, 13⟩ ⟨2022, 8, 17⟩ (idealTableH vals
                [⟨2022, 8, 13⟩, ⟨2022, 8, 14⟩, ⟨2022, 8, 15⟩, ⟨2022, 8, 16⟩, ⟨2022, 8, 17⟩]),
              mkYearRecord ⟨2021, 8, 15⟩ ⟨2021, 8, 13⟩ ⟨2021, 8, 17⟩ (idealTableH vals
                [⟨2021, 8, 13⟩, ⟨2021, 8, 14⟩, ⟨2021, 8, 15⟩, ⟨2021, 8, 16⟩, ⟨2021, 8, 17⟩])]),
            [mkYearRecord ⟨2023, 8, 15⟩ ⟨2023, 8, 13⟩ ⟨2023, 8, 17⟩ (idealTableH vals
                [⟨2023, 8, 13⟩, ⟨2023, 8, 14⟩, ⟨2023, 8, 15⟩, ⟨2023, 8, 16⟩, ⟨2023, 8, 17⟩]),
              mkYearRecord ⟨2022, 8, 15⟩ ⟨2022, 8, 13⟩ ⟨2022, 8, 17⟩ (idealTableH vals
                [⟨2022, 8, 13⟩, ⟨2022, 8, 14⟩, ⟨2022, 8, 15⟩, ⟨2022, 8, 16⟩, ⟨2022, 8, 17⟩]),
              mkYearRecord ⟨2021, 8, 15⟩ ⟨2021, 8, 13⟩ ⟨2021, 8, 17⟩ (idealTableH vals
                [⟨2021, 8, 13⟩, ⟨2021, 8, 14⟩, ⟨2021, 8, 15⟩, ⟨2021, 8, 16⟩, ⟨2021, 8, 17⟩])]) := by
    unfold get_combined_dataframe
    rw [hfy]
    simp only [hagg]
  refine ⟨_, _, hgcd, ?_, ?_, ?_, ?_, ?_, rfl, ?_, ?_⟩
  · simp [mkYearRecord]
  · simp [mkYearRecord]
  · simp [mkYearRecord]
  · simp [mkYearRecord]
  · simp [mkYearRecord, idealTableH]
  · simp [mkYearRecord, idealTableH, concat_tables]
  · simp [mkYearRecord, idealTableH, concat_tables]

/-- C6 witness -/
theorem c6_end_to_end_scenario_witness :
    (∀ s e : CalDate, idealProvider (build_url (24.8 : ℚ) (68 : ℚ) s e) =
      goodResponse (fun _ => constSix) s e)
    ∧ ∃ (final : ObsTableH) (recs : List YearRecord),
      get_combined_dataframe idealProvider (24.8 : ℚ) (68 : ℚ) ⟨2024, 8, 15⟩ 2 3 = .ok (final, recs)
      ∧ recs.map (fun r => r.Year) = [2023, 2022, 2021]
      ∧ recs.map (fun r => r.TDate) = [⟨2023, 8, 15⟩, ⟨2022, 8, 15⟩, ⟨2021, 8, 15⟩]
      ∧ recs.map (fun r => r.Start) = [⟨2023, 8, 13⟩, ⟨2022, 8, 13⟩, ⟨2021, 8, 13⟩]
      ∧ recs.map (fun r => r.Stop) = [⟨2023, 8, 17⟩, ⟨2022, 8, 17⟩, ⟨2021, 8, 17⟩]
      ∧ recs.map (fun r => r.df.dates) =
          [[⟨2023, 8, 13⟩, ⟨2023, 8, 14⟩, ⟨2023, 8, 15⟩, ⟨2023, 8, 16⟩, ⟨2023, 8, 17⟩],
           [⟨2022, 8, 13⟩, ⟨2022, 8, 14⟩, ⟨2022, 8, 15⟩, ⟨2022, 8, 16⟩, ⟨2022, 8, 17⟩],
           [⟨2021, 8, 13⟩, ⟨2021, 8, 14⟩, ⟨2021, 8, 15⟩, ⟨2021, 8, 16⟩, ⟨2021, 8, 17⟩]]
      ∧ final = concat_tables (recs.map (fun r => r.df))
      ∧ final.dates =
          [⟨2023, 8, 13⟩, ⟨2023, 8, 14⟩, ⟨2023, 8, 15⟩, ⟨2023, 8, 16⟩, ⟨2023, 8, 17⟩,
           ⟨2022, 8, 13⟩, ⟨2022, 8, 14⟩, ⟨2022, 8, 15⟩, ⟨2022, 8, 16⟩, ⟨2022, 8, 17⟩,
           ⟨2021, 8, 13⟩, ⟨2021, 8, 14⟩, ⟨2021, 8, 15⟩, ⟨2021, 8, 16⟩, ⟨2021, 8, 17⟩]
      ∧ final.dates.length = 15 :=
  ⟨fun s e => rfl,
    c6_end_to_end_scenario idealProvider (fun _ => constSix) (fun s e => rfl)⟩
